import Mathlib

/-!
A verification development for the Salt external-pillar module
`salt/pillar/ssm.py` (`ext_pillar`): the module scope-checks an optional
`env` argument against the active environment, builds a slash-delimited
parameter path from `root` and `pillar`, substitutes the `\x7benv\x7d` and
`\x7bminion\x7d` placeholders with two successive `str.format` calls, fetches
the parameter via `__salt__["boto_ssm.get_parameter"]`, and turns the
response into a pillar mapping.

The embedding models Python strings as Lean `String`/`List Char`, Python
`None`-or-string values as `Option String`, exceptions as an `Except` result,
and the remote accessor as an explicit behaviour parameter.  Log calls are
recorded as a list of (level, message) pairs and the number of evaluations of
the accessor expression is counted.
-/

/-- JSON-like values, as needed for the pillar mapping returned by the
module: the payload's `data` field holds a mapping from string keys to
values.  An empty Python dict is `Val.obj []`. -/
inductive Val where
  | str : String → Val
  | obj : List (String × Val) → Val

/-- Python exceptions that the modelled code can raise or catch:
`KeyError` (with its key), `ValueError`, and a catch-all for any other
exception type. -/
inductive PyExc where
  | keyError : String → PyExc
  | valueError : PyExc
  | other : PyExc
deriving DecidableEq

/-- Logging levels used by `ext_pillar`: `log.info` and `log.error`. -/
inductive LogLevel where
  | info : LogLevel
  | error : LogLevel
deriving DecidableEq

/-- Python truthiness of an optional string: `None` and `""` are falsy,
every other string is truthy. -/
def pyTruthy : Option String → Bool
  | none => false
  | some s => s ≠ ""

/-- Python `str(x)` for an optional string: `None` prints as `"None"`. -/
def pyStr : Option String → String
  | none => "None"
  | some s => s

/-- Python `e != a` where `e` is a string and `a` is a string or `None`
(a string always differs from `None`). -/
def pyNeEnv (e : String) : Option String → Bool
  | none => true
  | some s => e ≠ s

/-- An explicit recursive rendering of splitting a character list on `'/'`
(Python `s.split('/')`), keeping empty pieces, so that the empty string
splits to `[[]]` and `"/"` splits to `[[], []]`.  Used below for the
specification-following path construction; `splitSlash_eq_splitOn` relates
it to the library `List.splitOn`. -/
def splitSlash : List Char → List (List Char)
  | [] => [[]]
  | c :: t =>
    if c = '/' then [] :: splitSlash t
    else
      match splitSlash t with
      | s :: rest => (c :: s) :: rest
      | [] => [[c]]

/-- An explicit recursive rendering of joining character lists with `'/'`
(Python `'/'.join(xs)`): the pieces concatenated with a single `'/'` between
consecutive pieces.  `joinSlash_eq_intercalate` relates it to the library
`List.intercalate`. -/
def joinSlash : List (List Char) → List Char
  | [] => []
  | [s] => s
  | s :: t => s ++ '/' :: joinSlash t

/-- The path built by `ext_pillar` before placeholder substitution.
Modelled from the spec: the source expression
`'/'.join([''] + [x in for x in root.split('/') + pillar.split('/') if x])`
is syntactically malformed (a stray `in` inside the comprehension); per the
spec's design notes the intended expression is
`'/'.join([''] + [x for x in root.split('/') + pillar.split('/') if x])`:
split `root` and `pillar` on `'/'`, keep the non-empty (truthy) segments,
prepend one empty segment and join with `'/'`.  Python `split('/')` is
`List.splitOn '/'` and Python `'/'.join` is `List.intercalate ['/']` on
character lists. -/
def ssmPath (root pillar : String) : String :=
  ⟨List.intercalate ['/'] ([] ::
    ((root.data.splitOn '/' ++ pillar.data.splitOn '/').filter
      (fun s => !s.isEmpty)))⟩

/-- The path construction exactly as the specification words it: "split
`root` on `/`, split `pillar` on `/`, concatenate the two segment
sequences, discard empty segments, prepend a single leading empty segment,
join with `/`" — rendered with the recursive `splitSlash` and `joinSlash`.
Compared with `ssmPath` for the path-construction claim. -/
def specPathConstruction (root pillar : String) : String :=
  ⟨joinSlash ([] ::
    ((splitSlash root.data ++ splitSlash pillar.data).filter
      (fun s => !s.isEmpty)))⟩

/-- The path shape asserted by the spec: exactly one leading `'/'` (the
first character is `'/'` and the second is not), and every `'/'`-delimited
segment after the leading empty one is non-empty. -/
def pathWellFormed (p : String) : Prop :=
  p.data.head? = some '/' ∧
  p.data.tail.head? ≠ some '/' ∧
  ∀ s ∈ (p.data.splitOn '/').tail, s ≠ []

/-- Look up the name of a replacement field of `str.format` among the keyword
arguments.  An empty or all-digit field name refers to a positional argument
(the module passes none, so Python raises `IndexError`, absorbed into
`PyExc.other`); a missing keyword raises `KeyError` with the name.
Conversion and format specifications (after `!` or `:`) select the name only;
their application to the value is not modelled — the fields appearing in this
module are the plain `\x7benv\x7d` and `\x7bminion\x7d`. -/
def fieldLookup (kw : List (String × String)) (field : List Char) :
    Except PyExc (List Char) :=
  let name := field.takeWhile (fun c => c ≠ ':' && c ≠ '!')
  if name.isEmpty then .error .other
  else if name.all Char.isDigit then .error .other
  else
    match kw.find? (fun kv => kv.1 == String.mk name) with
    | some kv => .ok kv.2.data
    | none => .error (.keyError (String.mk name))

/-- Scanner state of Python `str.format`: in plain text, just after a lone
opening brace, just after a lone closing brace, or inside a replacement
field (accumulated characters held in reverse). -/
inductive FmtState where
  | plain : FmtState
  | afterOpen : FmtState
  | afterClose : FmtState
  | field : List Char → FmtState

/-- The scanner of Python `str.format`: outside a replacement field a
doubled brace is a literal brace and a single closing brace is a
`ValueError`; a single opening brace starts a field, which a closing brace
ends by substituting its value; a string ending inside a field or right
after a lone brace is a `ValueError`. -/
def pyFormatGo (kw : List (String × String)) :
    FmtState → List Char → Except PyExc (List Char)
  | .plain, [] => .ok []
  | .plain, c :: t =>
    if c = '\x7b' then pyFormatGo kw .afterOpen t
    else if c = '\x7d' then pyFormatGo kw .afterClose t
    else (pyFormatGo kw .plain t).map (c :: ·)
  | .afterOpen, [] => .error .valueError
  | .afterOpen, c :: t =>
    if c = '\x7b' then (pyFormatGo kw .plain t).map ('\x7b' :: ·)
    else if c = '\x7d' then
      match fieldLookup kw [] with
      | .ok v => (pyFormatGo kw .plain t).map (v ++ ·)
      | .error e => .error e
    else pyFormatGo kw (.field [c]) t
  | .afterClose, [] => .error .valueError
  | .afterClose, c :: t =>
    if c = '\x7d' then (pyFormatGo kw .plain t).map ('\x7d' :: ·)
    else .error .valueError
  | .field _, [] => .error .valueError
  | .field acc, c :: t =>
    if c = '\x7d' then
      match fieldLookup kw acc.reverse with
      | .ok v => (pyFormatGo kw .plain t).map (v ++ ·)
      | .error e => .error e
    else pyFormatGo kw (.field (c :: acc)) t

/-- Python `s.format(**kw)` restricted as described at `fieldLookup`:
substitutes every replacement field from `kw`, raising `KeyError` for a
field name absent from `kw`. -/
def pyFormat (s : String) (kw : List (String × String)) :
    Except PyExc String :=
  (pyFormatGo kw .plain s.data).map String.mk

/-- The two placeholder-substitution passes of `ext_pillar`:
`path.format(**\x7b"env": __env__\x7d)` followed by
`path.format(**\x7b"minion": minion_id\x7d)`, the first failure
propagating (both calls stand outside the `try` block in the source). -/
def resolvedPath (minion_id root pillar : String) (envActive : Option String) :
    Except PyExc String :=
  match pyFormat (ssmPath root pillar) [("env", pyStr envActive)] with
  | .error e => .error e
  | .ok p1 => pyFormat p1 [("minion", minion_id)]

/-- Behaviour of the accessor expression
`__salt__["boto_ssm.get_parameter"](path)`: it returns a response with a
status code and a JSON object payload, or raises a `KeyError` (either the
dispatch-table lookup or an internal lookup), or raises some other
exception. -/
inductive AccessorBehaviour where
  | returns : Nat → List (String × Val) → AccessorBehaviour
  | raisesKeyError : String → AccessorBehaviour
  | raisesOther : AccessorBehaviour

/-- Python `d.get(k, default)` on a JSON object. -/
def lookupD (j : List (String × Val)) (k : String) (d : Val) : Val :=
  match j.find? (fun kv => kv.1 == k) with
  | some kv => kv.2
  | none => d

/-- Outcome of one `ext_pillar` call: the returned value or the escaped
exception, the log entries emitted, and how many times the accessor
expression was evaluated. -/
structure RunResult where
  result : Except PyExc Val
  logs : List (LogLevel × String)
  calls : Nat

/-- The scope check `if env: if env != __env__: return data` — true when the
call returns the (still empty) mapping immediately. -/
def scopeMismatch (env envActive : Option String) : Bool :=
  match env with
  | none => false
  | some e => if e = "" then false else pyNeEnv e envActive

/-- The part of `ext_pillar` after the scope check: build and format the
path, call the accessor inside `try`, and handle the response —
`status_code == 200` extracts `response.json().get("data", \x7b\x7d)`, any
other status logs at info level, a `KeyError` is caught and logged at error
level, and any other exception escapes.  The two `format` calls stand before
the `try` block, so their exceptions escape to the caller. -/
def ext_pillar_fetch (minion_id pillar root : String)
    (envActive : Option String) (acc : AccessorBehaviour) : RunResult :=
  match resolvedPath minion_id root pillar envActive with
  | .error e => ⟨.error e, [], 0⟩
  | .ok path =>
    match acc with
    | .returns status j =>
      if status = 200 then ⟨.ok (lookupD j "data" (Val.obj [])), [], 1⟩
      else ⟨.ok (Val.obj []),
            [(LogLevel.info, "SSM parameter not found for: " ++ path)], 1⟩
    | .raisesKeyError _ =>
      ⟨.ok (Val.obj []),
       [(LogLevel.error, "No such path in SSM: " ++ path)], 1⟩
    | .raisesOther => ⟨.error .other, [], 1⟩

/-- The whole `ext_pillar(minion_id, pillar, env, root)` call.  `envActive`
is `__env__ = __opts__.get("pillarenv") or __opts__.get("saltenv")`, and
`acc` fixes the behaviour of the accessor expression for this call. -/
def ext_pillar (minion_id pillar : String) (env : Option String)
    (root : String) (envActive : Option String) (acc : AccessorBehaviour) :
    RunResult :=
  if scopeMismatch env envActive then ⟨.ok (Val.obj []), [], 0⟩
  else ext_pillar_fetch minion_id pillar root envActive acc

/-! Sanity checks of the model against Python behaviour. -/

example : "".data.splitOn '/' = [[]] := rfl
example : "/".data.splitOn '/' = [[], []] := rfl
example : "a//b/".data.splitOn '/' = ["a".data, [], "b".data, []] := rfl
example : List.intercalate ['/'] [[], "a".data, "b".data] = "/a/b".data := rfl
example : ssmPath "/dev/" "auth" = "/dev/auth" := rfl
example : pyFormat "/\x7benv\x7d/web" [("env", "prod")] = .ok "/prod/web" := rfl
example : pyFormat "/\x7bminion\x7d" [("env", "prod")] =
    .error (.keyError "minion") := rfl
example : pyFormat "a\x7b\x7bb" [] = .ok "a\x7bb" := rfl
example : resolvedPath "web1" "" "auth" (some "prod") = .ok "/auth" := rfl
example : resolvedPath "web1" "/\x7benv\x7d/web" "" (some "prod") =
    .ok "/prod/web" := rfl

/-! Helper lemmas about splitting and joining on `'/'`. -/

theorem splitSlash_ne_nil (l : List Char) : splitSlash l ≠ [] := by
  cases l with
  | nil => simp [splitSlash]
  | cons c t =>
    simp only [splitSlash]
    split
    · simp
    · split <;> simp

theorem splitSlash_eq_splitOn (l : List Char) :
    splitSlash l = l.splitOn '/' := by
  induction l with
  | nil => rfl
  | cons c t ih =>
    cases hs : splitSlash t with
    | nil => exact absurd hs (splitSlash_ne_nil t)
    | cons s rest =>
      by_cases h : c = '/'
      · subst h
        simp only [splitSlash, if_pos rfl, List.splitOn, List.splitOnP_cons,
          beq_self_eq_true, if_true]
        rw [← List.splitOn, ih]
      · have hb : (c == '/') = false := beq_eq_false_iff_ne.mpr h
        simp only [splitSlash, if_neg h, hs, List.splitOn, List.splitOnP_cons,
          hb, Bool.false_eq_true, if_false]
        rw [← List.splitOn, ← ih, hs]
        rfl

theorem joinSlash_eq_intercalate :
    ∀ l : List (List Char), joinSlash l = List.intercalate ['/'] l
  | [] => by simp [joinSlash, List.intercalate]
  | [s] => by simp [joinSlash, List.intercalate]
  | s :: a :: t => by
    have ih := joinSlash_eq_intercalate (a :: t)
    simp only [List.intercalate] at ih ⊢
    simp only [joinSlash, List.intersperse_cons_cons, List.flatten_cons, ih]
    simp

theorem slash_not_mem_splitSlash (l : List Char) :
    ∀ s ∈ splitSlash l, '/' ∉ s := by
  induction l with
  | nil =>
    intro s hs
    simp only [splitSlash, List.mem_singleton] at hs
    simp [hs]
  | cons c t ih =>
    intro s hs
    by_cases h : c = '/'
    · subst h
      simp only [splitSlash, if_pos rfl] at hs
      rcases List.mem_cons.mp hs with rfl | hs
      · simp
      · exact ih s hs
    · cases hst : splitSlash t with
      | nil => exact absurd hst (splitSlash_ne_nil t)
      | cons s0 rest =>
        simp only [splitSlash, if_neg h, hst] at hs
        rcases List.mem_cons.mp hs with rfl | hs
        · intro hm
          rcases List.mem_cons.mp hm with hc | hm
          · exact h hc.symm
          · exact ih s0 (hst ▸ List.mem_cons_self s0 rest) hm
        · exact ih s (hst ▸ List.mem_cons_of_mem s0 hs)

theorem slash_not_mem_splitOn (l : List Char) :
    ∀ s ∈ l.splitOn '/', '/' ∉ s := by
  rw [← splitSlash_eq_splitOn]
  exact slash_not_mem_splitSlash l

theorem joinSlash_head (s : List Char) (t : List (List Char)) (h : s ≠ []) :
    (joinSlash (s :: t)).head? = s.head? := by
  cases t with
  | nil => rfl
  | cons a t =>
    cases s with
    | nil => exact absurd rfl h
    | cons c cs => rfl

/-- Joining a single leading empty segment with non-empty, `'/'`-free
segments yields a well-formed path. -/
theorem wellFormed_intercalate (l : List (List Char)) (hne : l ≠ [])
    (hs : ∀ s ∈ l, s ≠ [] ∧ '/' ∉ s) :
    pathWellFormed ⟨List.intercalate ['/'] ([] :: l)⟩ := by
  cases l with
  | nil => exact absurd rfl hne
  | cons s0 t =>
    have hs0 := hs s0 (List.mem_cons_self s0 t)
    have hdata : (List.intercalate ['/'] ([] :: s0 :: t)) =
        '/' :: joinSlash (s0 :: t) := by
      rw [← joinSlash_eq_intercalate]
      rfl
    refine ⟨?_, ?_, ?_⟩
    · show (List.intercalate ['/'] ([] :: s0 :: t)).head? = some '/'
      rw [hdata]
      rfl
    · show (List.intercalate ['/'] ([] :: s0 :: t)).tail.head? ≠ some '/'
      rw [hdata]
      simp only [List.tail_cons]
      rw [joinSlash_head s0 t hs0.1]
      cases s0 with
      | nil => exact absurd rfl hs0.1
      | cons c cs =>
        simp only [List.head?_cons, ne_eq, Option.some.injEq]
        intro hc
        exact hs0.2 (hc ▸ List.mem_cons_self c cs)
    · show ∀ s ∈ ((List.intercalate ['/']
          ([] :: s0 :: t)).splitOn '/').tail, s ≠ []
      rw [List.splitOn_intercalate ([] :: s0 :: t) '/'
        (by
          intro x hx
          rcases List.mem_cons.mp hx with rfl | hx
          · simp
          · exact (hs x hx).2)
        (List.cons_ne_nil _ _)]
      intro s hmem
      exact (hs s hmem).1

/-! Claim theorems. -/

/-- Claim C1: the claim says no exception ever crosses back to the caller.
The code violates it: with the documented configuration `root = "/\x7bminion\x7d"`
(and any accessor behaviour), the call
`path.format(**\x7b"env": __env__\x7d)` stands outside the `try` block and
raises `KeyError('minion')`, which escapes to the caller before any remote
call is made. -/
theorem ext_pillar_raises_on_documented_root :
    ext_pillar "web1" "" none "/\x7bminion\x7d" (some "prod")
      (.returns 200 []) =
      ⟨.error (.keyError "minion"), [], 0⟩ := rfl

/-- Claim C2: the claim says the two substitution passes are independent and
substituting one placeholder never fails because the other is still present,
with `root = "/\x7benv\x7d/\x7bminion\x7d"` resolving to `/prod/web1`.  The
code violates it: Python `str.format` requires every replacement field to be
supplied, so the first pass `path.format(**\x7b"env": "prod"\x7d)` raises
`KeyError('minion')` and no path is produced. -/
theorem placeholder_substitution_raises :
    resolvedPath "web1" "/\x7benv\x7d/\x7bminion\x7d" "" (some "prod") =
      .error (.keyError "minion") := rfl

/-- Claim C3 fails as stated: with `root = ""` and `pillar = ""` every
segment is empty, the resolved path is the empty string, and the empty
string has no leading `'/'`. -/
theorem path_shape_fails_on_empty_inputs :
    ssmPath "" "" = "" ∧ ¬ pathWellFormed (ssmPath "" "") := by
  refine ⟨rfl, ?_⟩
  intro h
  exact absurd h.1 (by decide)

/-- Claim C3 (amended): for every `root` and `pillar` that contribute at
least one non-empty segment, the resolved path (before placeholder
substitution) has exactly one leading `'/'` and no empty interior segments;
when every segment is empty the resolved path is the empty string. -/
theorem path_shape_wellFormed_amended (root pillar : String)
    (h : (root.data.splitOn '/' ++ pillar.data.splitOn '/').filter
      (fun s => !s.isEmpty) ≠ []) :
    pathWellFormed (ssmPath root pillar) := by
  apply wellFormed_intercalate _ h
  intro s hmem
  have hm := List.mem_filter.mp hmem
  constructor
  · have := hm.2
    simp only [Bool.not_eq_eq_eq_not, Bool.not_false, List.isEmpty_eq_true]
      at this
    simp_all
  · rcases List.mem_append.mp hm.1 with hx | hx
    · exact slash_not_mem_splitOn _ s hx
    · exact slash_not_mem_splitOn _ s hx

theorem path_shape_wellFormed_amended_witness :
    pathWellFormed (ssmPath "/dev" "auth") :=
  path_shape_wellFormed_amended "/dev" "auth" (by decide)

/-- Claim C4: when `env` is set (a non-empty string, hence truthy) and
differs from the active environment, the resolver returns an empty mapping,
logs nothing, and evaluates the accessor zero times. -/
theorem scope_mismatch_returns_empty_no_calls (m p e r : String)
    (a : Option String) (acc : AccessorBehaviour)
    (he : e ≠ "") (hne : pyNeEnv e a = true) :
    ext_pillar m p (some e) r a acc = ⟨.ok (Val.obj []), [], 0⟩ := by
  simp [ext_pillar, scopeMismatch, he, hne]

theorem scope_mismatch_returns_empty_no_calls_witness :
    ext_pillar "web1" "auth" (some "dev") "" (some "prod")
      (.returns 200 []) = ⟨.ok (Val.obj []), [], 0⟩ :=
  scope_mismatch_returns_empty_no_calls "web1" "auth" "dev" ""
    (some "prod") (.returns 200 []) (by decide) (by decide)

/-- Claim C5: the claim says that with `env` unset exactly one remote call
is attempted.  The code violates it: with `root = "/dev/\x7bminion\x7d"` the
`format` call raises before the accessor expression is ever evaluated, so
zero remote calls are attempted. -/
theorem no_remote_call_on_minion_placeholder_root :
    ext_pillar "salt1" "auth" none "/dev/\x7bminion\x7d" (some "base")
      (.returns 200 []) =
      ⟨.error (.keyError "minion"), [], 0⟩ := rfl

/-- Claim C6: the path construction of the code equals the algorithm as the
spec words it (split on `/`, concatenate, discard empty segments, prepend a
leading empty segment, join with `/`), and in particular `root = ""`,
`pillar = "auth"` resolves to `/auth`. -/
theorem path_construction_follows_spec :
    (∀ root pillar : String,
      ssmPath root pillar = specPathConstruction root pillar) ∧
    ssmPath "" "auth" = "/auth" := by
  refine ⟨?_, rfl⟩
  intro root pillar
  unfold ssmPath specPathConstruction
  rw [joinSlash_eq_intercalate, splitSlash_eq_splitOn, splitSlash_eq_splitOn]

/-- Claim C7: on a 200 response the resolver returns exactly the payload's
`data` field, defaulting to the empty mapping when the field is absent,
with no log entries and one accessor evaluation. -/
theorem success_returns_data_field (m p r q : String) (a : Option String)
    (j : List (String × Val)) (h : resolvedPath m r p a = .ok q) :
    ext_pillar m p none r a (.returns 200 j) =
      ⟨.ok (lookupD j "data" (Val.obj [])), [], 1⟩ := by
  simp [ext_pillar, scopeMismatch, ext_pillar_fetch, h]

theorem success_returns_data_field_witness :
    ext_pillar "web1" "auth" none "" (some "prod")
      (.returns 200 [("data", Val.obj [("password", Val.str "x")])]) =
      ⟨.ok (Val.obj [("password", Val.str "x")]), [], 1⟩ :=
  success_returns_data_field "web1" "auth" "" "/auth" (some "prod")
    [("data", Val.obj [("password", Val.str "x")])] rfl

/-- Claim C8: on a non-200 (not-found) response the resolver returns the
empty mapping and emits exactly one log entry, at informational level. -/
theorem not_found_logs_info_returns_empty (m p r q : String)
    (a : Option String) (st : Nat) (j : List (String × Val))
    (h : resolvedPath m r p a = .ok q) (hst : st ≠ 200) :
    ext_pillar m p none r a (.returns st j) =
      ⟨.ok (Val.obj []),
       [(LogLevel.info, "SSM parameter not found for: " ++ q)], 1⟩ := by
  simp [ext_pillar, scopeMismatch, ext_pillar_fetch, h, hst]

theorem not_found_logs_info_returns_empty_witness :
    ext_pillar "web1" "auth" none "" (some "prod") (.returns 404 []) =
      ⟨.ok (Val.obj []),
       [(LogLevel.info, "SSM parameter not found for: /auth")], 1⟩ :=
  not_found_logs_info_returns_empty "web1" "auth" "" "/auth"
    (some "prod") 404 [] rfl (by decide)

/-- Claim C9: when the accessor expression raises a `KeyError` the resolver
catches it, emits exactly one log entry at error level, and returns the
empty mapping. -/
theorem keyError_logged_error_returns_empty (m p r q k : String)
    (a : Option String) (h : resolvedPath m r p a = .ok q) :
    ext_pillar m p none r a (.raisesKeyError k) =
      ⟨.ok (Val.obj []),
       [(LogLevel.error, "No such path in SSM: " ++ q)], 1⟩ := by
  simp [ext_pillar, scopeMismatch, ext_pillar_fetch, h]

theorem keyError_logged_error_returns_empty_witness :
    ext_pillar "web1" "auth" none "" (some "prod")
      (.raisesKeyError "boto_ssm.get_parameter") =
      ⟨.ok (Val.obj []),
       [(LogLevel.error, "No such path in SSM: /auth")], 1⟩ :=
  keyError_logged_error_returns_empty "web1" "auth" "" "/auth"
    "boto_ssm.get_parameter" (some "prod") rfl

/-- Claim C10: an empty-string `env` is falsy, so the scope check is skipped
and the call behaves exactly as with `env` unset; in particular, with the
active environment `"prod"` differing from `""`, the path is built and the
accessor is still evaluated once. -/
theorem empty_env_skips_scope_check :
    (∀ (m p r : String) (a : Option String) (acc : AccessorBehaviour),
      ext_pillar m p (some "") r a acc = ext_pillar m p none r a acc) ∧
    (ext_pillar "web1" "auth" (some "") "" (some "prod")
      (.returns 200 [])).calls = 1 := by
  exact ⟨fun m p r a acc => rfl, rfl⟩
